import Mathlib

/-!
A verification development for the daily-contributor-bot repository.

The Python sources (`src/config.py`, `src/utils.py`, `src/content_generator.py`,
`src/git_operations.py`, `main.py`) are shallowly embedded below: pure helpers
become Lean functions; the stateful git layer becomes explicit state passing
over a `RepoState` record; the outcome of each external git/network/filesystem
operation (fetch, pull, push, file write, ...) is an explicit parameter, and a
Python exception escaping a function is an explicit `Option PyExn` component of
its result.
-/

/-! ## Calendar dates and `strftime`-style formatting (src/utils.py) -/

/-- A calendar date, as Python's `datetime.date` triple. -/
structure Date where
  year : Nat
  month : Nat
  day : Nat
deriving DecidableEq, Repr

/-- Zero-pad the decimal rendering of `n` to width `w` (as `strftime` codes
`%Y`, `%m`, `%d` do). -/
def padZero (w : Nat) (n : Nat) : String :=
  let s := toString n
  String.mk (List.replicate (w - s.length) '0') ++ s

/-- `utils.iso_date_string`: `d.strftime("%Y%m%d")`. -/
def iso_date_string (d : Date) : String :=
  padZero 4 d.year ++ padZero 2 d.month ++ padZero 2 d.day

/-- `utils.branch_name_for_date`: `f"feature/news-{iso_date_string(d)}"`.
The Python default argument `d=None` (meaning today) is resolved by the caller
here: the date is always passed explicitly. -/
def branch_name_for_date (d : Date) : String :=
  "feature/news-" ++ iso_date_string d

/-- `utils.digest_filename_for_date`: `f"digest_{iso_date_string(d)}.md"`. -/
def digest_filename_for_date (d : Date) : String :=
  "digest_" ++ iso_date_string d ++ ".md"

/-- The spec side of claim C3: the date `d` formatted as zero-padded
`YYYYMMDD`. -/
def spec_yyyymmdd (d : Date) : String :=
  padZero 4 d.year ++ padZero 2 d.month ++ padZero 2 d.day

/-- Gregorian leap-year test, as Python's `calendar`/`datetime` use it. -/
def isLeapYear (y : Nat) : Bool :=
  (y % 4 == 0 && y % 100 != 0) || (y % 400 == 0)

/-- Month lengths of year `y`, January first. -/
def monthLengths (y : Nat) : List Nat :=
  [31, if isLeapYear y then 29 else 28, 31, 30, 31, 30, 31, 31, 30, 31, 30, 31]

/-- Python's `date.toordinal`: day number in the proleptic Gregorian calendar,
with 0001-01-01 as day 1. -/
def toOrdinal (d : Date) : Nat :=
  let y := d.year - 1
  365 * y + y / 4 - y / 100 + y / 400 + ((monthLengths d.year).take (d.month - 1)).sum + d.day

/-- Python's `date.weekday()`: Monday is 0, Sunday is 6. -/
def weekday (d : Date) : Nat :=
  (toOrdinal d + 6) % 7

/-- Full weekday names as `strftime` code `%A` renders them. -/
def dayNames : List String :=
  ["Monday", "Tuesday", "Wednesday", "Thursday", "Friday", "Saturday", "Sunday"]

/-- Full month names as `strftime` code `%B` renders them. -/
def monthNames : List String :=
  ["January", "February", "March", "April", "May", "June",
   "July", "August", "September", "October", "November", "December"]

/-- `d.strftime("%A, %B %d, %Y")`, the long date form of
`ContentGenerator._build_content`. -/
def long_date_string (d : Date) : String :=
  dayNames.getD (weekday d) "" ++ ", " ++ monthNames.getD (d.month - 1) "" ++ " " ++
    padZero 2 d.day ++ ", " ++ padZero 4 d.year

/-! ## Configuration (src/config.py) -/

/-- Python truthiness of an optional string (`None` and `""` are falsy), as
used by `if self.repo_owner_alt and self.repo_name_alt`. -/
def truthy : Option String → Bool
  | none => false
  | some s => !(s == "")

/-- `Config._build_repo_url`: the upstream URL
`https://github.com/{owner}/{repo}.git` when owner and name are both
configured (truthy), else `None`. -/
def build_repo_url (owner name : Option String) : Option String :=
  if truthy owner && truthy name then
    some ("https://github.com/" ++ owner.getD "" ++ "/" ++ name.getD "" ++ ".git")
  else none

/-- Python `str.lower`, character by character (ASCII case mapping: the only
comparison made is against the ASCII string `"true"`). -/
def pyLower (s : String) : String :=
  String.mk (s.data.map Char.toLower)

/-- Python `str.strip()`: drop whitespace from both ends. -/
def pyStrip (s : String) : String :=
  String.mk (((s.data.dropWhile Char.isWhitespace).reverse.dropWhile Char.isWhitespace).reverse)

/-- `Config._get_bool_env` applied to the looked-up environment value:
`str(value).strip().lower() == "true" if value is not None else default`.
`value` is already a string when set, so `str(value)` is the identity. -/
def get_bool_env (value : Option String) (dflt : Bool) : Bool :=
  match value with
  | some s => pyLower (pyStrip s) == "true"
  | none => dflt

/-- The `enable_log_branch` flag of `Config.__init__`:
`self._get_bool_env("ENABLE_LOG_BRANCH")`, with the default `False`.
The argument is the value of the `ENABLE_LOG_BRANCH` environment variable
(`none` when unset). -/
def enable_log_branch (envValue : Option String) : Bool :=
  get_bool_env envValue false

/-- The static configuration the git and content layers read. The fields that
the modelled code paths dereference unconditionally (`remote_upstream`,
`fork_path`, `news_dir`, `log_branch`) are taken as set; `repo_owner_alt` and
`repo_name_alt` stay optional because `_build_repo_url` branches on them. -/
structure Config where
  repoOwnerAlt : Option String
  repoNameAlt : Option String
  remoteUpstream : String
  forkPath : String
  newsDir : String
  logBranch : String
deriving DecidableEq, Repr

/-- `self.repo_url_alt = self._build_repo_url()`. -/
def Config.repoUrlAlt (c : Config) : Option String :=
  build_repo_url c.repoOwnerAlt c.repoNameAlt

/-! ## Filesystem and `utils.write_text_file` -/

/-- A filesystem modelled as a map from paths to file contents. -/
def FS : Type := String → Option String

/-- The temporary path `path.with_suffix(path.suffix + ".tmp")`: since the new
suffix is the old one with `".tmp"` appended, the result is always the
original path with `".tmp"` appended. -/
def tmp_path (p : String) : String := p ++ ".tmp"

/-- The filesystem after the first `k` steps of `utils.write_text_file p c`.
Step 1 opens (creates/truncates) the temporary file, step 2 writes the whole
content to it, step 3 is `tmp_path.replace(path)`, the atomic rename onto the
target. `k = 3` is the completed call; `k < 3` are the intermediate states an
interruption could leave behind. (`ensure_dir` only touches directories, which
this file map does not track.) -/
def write_text_file_at (p c : String) (fs : FS) : Nat → FS
  | 0 => fs
  | 1 => fun q => if q = tmp_path p then some "" else fs q
  | 2 => fun q => if q = tmp_path p then some c else fs q
  | _ => fun q => if q = p then some c else if q = tmp_path p then none else fs q

/-- `utils.write_text_file`, run to completion. -/
def write_text_file (p c : String) (fs : FS) : FS :=
  write_text_file_at p c fs 3

/-! ## Content generation (src/content_generator.py) -/

/-- The fixed headline candidate list of `ContentGenerator._build_content`. -/
def headlines : List String :=
  ["Quantum progress: stable qubits announced.",
   "Python 4.0: rumors about stricter typing.",
   "GitHub Copilot improves unit test generation.",
   "Generative AI is reshaping UI/UX design."]

/-- The fixed tail of the digest template (the literal parts after the
headline line in `_build_content`). -/
def digestBody : String :=
  "This digest explores how automation is reshaping developer " ++
  "workflows: from CI to automated PR approvals. This repository " ++
  "demonstrates an automated content pipeline.\n\n" ++
  "---\n\n" ++
  "Generated automatically by the daily contributor bot."

/-- `ContentGenerator._build_content`: the Markdown digest for date `d`.
`random.choice(headlines)` is modelled by the explicit index `choice`. -/
def build_content (d : Date) (choice : Fin 4) : String :=
  "# Daily Tech Digest - " ++ long_date_string d ++ "\n\n" ++
  "## " ++ headlines.getD choice.val "" ++ "\n\n" ++ digestBody

/-! ## The git layer (src/git_operations.py)

GitPython calls are modelled over an explicit repository state. External
outcomes (network, working tree) are explicit: a step that can fail carries
an `Option PyExn` parameter, `none` meaning success and `some e` meaning the
underlying call raises `e`. A Python exception escaping a function is the
`Option PyExn` component of its result (`none` = the function returns
normally). -/

/-- The Python exception classes this code can see. `gitCommandError` is
GitPython's `GitCommandError` (the only class `sync_with_upstream` and
`commit_and_push` catch); `typeError` is what `Git.polish_url(None)` raises
inside `create_remote` when the URL is `None`; `valueError` is what
`Repo.remote("origin")` raises when no such remote exists; `osError` covers
filesystem errors such as staging a nonexistent path. -/
inductive PyExn where
  | gitCommandError (msg : String)
  | typeError (msg : String)
  | valueError (msg : String)
  | osError (msg : String)
deriving DecidableEq, Repr

/-- Logger levels (`logger.exception` logs at error level). -/
inductive LogLevel where
  | debug
  | info
  | warning
  | error
deriving DecidableEq, Repr

/-- One logged message. -/
structure LogMsg where
  level : LogLevel
  text : String
deriving DecidableEq, Repr

/-- The state of the working copy: remotes (name, url), local branches in
creation order, remote-tracking ref names (such as `upstream/main`), the
currently checked-out branch, the staged paths, the commit messages made, and
the pushes performed (remote, branch). Git itself keeps branch names unique,
so `heads` of a reachable state has no duplicates. -/
structure RepoState where
  remotes : List (String × String)
  heads : List String
  remoteRefs : List String
  current : Option String
  index : List String
  commits : List String
  pushes : List (String × String)
deriving DecidableEq, Repr

/-- `GitManager._get_remote`: the remote with the given name, or `none`. -/
def get_remote (st : RepoState) (name : String) : Option (String × String) :=
  st.remotes.find? (fun r => r.1 == name)

/-- `GitManager._checkout_or_create_branch`: check out the branch if it
exists, else create it from current HEAD and check it out. -/
def checkout_or_create_branch (st : RepoState) (name : String) : RepoState :=
  if name ∈ st.heads then { st with current := some name }
  else { st with heads := st.heads ++ [name], current := some name }

/-- The names `x in self.repo.refs` can match: local branches and
remote-tracking refs. -/
def refNames (st : RepoState) : List String :=
  st.heads ++ st.remoteRefs

/-- Which arm of the mainline resolution in `sync_with_upstream` ran. -/
inductive MainlineAction where
  | checkoutExisting
  | createFromRemoteRef
  | createFromHead
deriving DecidableEq, Repr

/-- The mainline-resolution fragment of `GitManager.sync_with_upstream`
(lines 61-75): check out a local `main` if it exists; else, if the
remote-tracking ref `<upstream>/main` exists, create a local `main` from it
(`git checkout -b main <upstream>/main`); else create `main` from current
HEAD with a warning. -/
def resolve_mainline (upstreamName : String) (st : RepoState) :
    RepoState × MainlineAction × List LogMsg :=
  if "main" ∈ st.heads then
    ({ st with current := some "main" }, MainlineAction.checkoutExisting, [])
  else if (upstreamName ++ "/main") ∈ refNames st then
    ({ st with heads := st.heads ++ ["main"], current := some "main" },
     MainlineAction.createFromRemoteRef, [])
  else
    ({ st with heads := st.heads ++ ["main"], current := some "main" },
     MainlineAction.createFromHead,
     [⟨LogLevel.warning, "Created main from current HEAD; upstream main not found."⟩])

/-- Outcomes of the network operations `sync_with_upstream` performs. The
remote-tracking refs that a successful fetch leaves behind are the
`remoteRefs` of the state. -/
structure SyncEnv where
  fetchOk : Bool
  pullOk : Bool
deriving DecidableEq, Repr

/-- `sync_with_upstream` after the upstream remote is ensured: fetch, resolve
mainline, pull — with the surrounding `except GitCommandError` turning any
`GitCommandError` into a warning and a normal return. -/
def syncAfterRemote (cfg : Config) (st : RepoState) (logs : List LogMsg) (env : SyncEnv) :
    RepoState × List LogMsg × Option PyExn :=
  if !env.fetchOk then
    (st, logs ++ [⟨LogLevel.warning, "Could not fully sync with upstream: fetch failed"⟩], none)
  else
    match resolve_mainline cfg.remoteUpstream st with
    | (st2, _, mlogs) =>
      if !env.pullOk then
        (st2, logs ++ mlogs ++
          [⟨LogLevel.warning, "Could not fully sync with upstream: pull failed"⟩], none)
      else
        (st2, logs ++ mlogs ++ [⟨LogLevel.info, "Synchronized fork with upstream/main."⟩], none)

/-- `GitManager.sync_with_upstream`. Its `try` block only catches
`GitCommandError`. When the upstream remote is absent it calls
`create_remote(name, self.config.repo_url_alt)`; with `repo_url_alt = None`,
GitPython's `Git.polish_url(None)` raises a `TypeError`
(`os.path.expandvars(None)`), which the `except GitCommandError` clause does
not catch, so it escapes to the caller. -/
def sync_with_upstream (cfg : Config) (st : RepoState) (env : SyncEnv) :
    RepoState × List LogMsg × Option PyExn :=
  match get_remote st cfg.remoteUpstream with
  | some _ => syncAfterRemote cfg st [] env
  | none =>
    match cfg.repoUrlAlt with
    | none =>
      (st, [], some (PyExn.typeError "expected str, bytes or os.PathLike object, not NoneType"))
    | some url =>
      syncAfterRemote cfg { st with remotes := st.remotes ++ [(cfg.remoteUpstream, url)] }
        [⟨LogLevel.info, "Added upstream remote"⟩] env

/-- `os.path.basename` for the forward-slash paths this model uses. -/
def basename (p : String) : String :=
  ((p.splitOn "/").getLast?).getD p

/-- The `except GitCommandError ... raise` clause of `commit_and_push`: a
`GitCommandError` is logged (at exception/error level) and re-raised; any
other exception propagates without that log line. Either way the exception
escapes. -/
def handleGitExc (st : RepoState) (logs : List LogMsg) (e : PyExn) :
    RepoState × List LogMsg × Option PyExn :=
  match e with
  | PyExn.gitCommandError m =>
    (st, logs ++ [⟨LogLevel.error, "Git operation failed: " ++ m⟩], some e)
  | _ => (st, logs, some e)

/-- Outcomes of the fallible operations inside `commit_and_push`:
the branch checkout/creation, `index.add`, `index.commit`, whether the
`origin` remote exists, and the push. -/
structure PublishEnv where
  branchExn : Option PyExn
  stageExn : Option PyExn
  commitExn : Option PyExn
  originExists : Bool
  pushExn : Option PyExn
deriving DecidableEq, Repr

/-- `GitManager.commit_and_push`: checkout-or-create the branch, stage the
file, commit, look up `origin` (a missing `origin` raises `ValueError`, which
`except GitCommandError` does not catch), push. -/
def commit_and_push (st : RepoState) (branchName filePath : String)
    (commitMessage : Option String) (env : PublishEnv) :
    RepoState × List LogMsg × Option PyExn :=
  let msg := commitMessage.getD ("feat: add " ++ basename filePath)
  match env.branchExn with
  | some e => handleGitExc st [] e
  | none =>
    let st1 := checkout_or_create_branch st branchName
    match env.stageExn with
    | some e => handleGitExc st1 [] e
    | none =>
      let st2 := { st1 with index := st1.index ++ [filePath] }
      match env.commitExn with
      | some e => handleGitExc st2 [] e
      | none =>
        let st3 := { st2 with commits := st2.commits ++ [msg] }
        if !env.originExists then
          handleGitExc st3 [] (PyExn.valueError "Remote named origin did not exist")
        else
          match env.pushExn with
          | some e => handleGitExc st3 [] e
          | none =>
            ({ st3 with pushes := st3.pushes ++ [("origin", branchName)] },
             [⟨LogLevel.info, "Pushed branch " ++ branchName ++ " to origin"⟩], none)

/-- Outcomes of the fallible operations inside `push_logs_to_branch`. -/
structure LogsEnv where
  logsDirExists : Bool
  stageExn : Option PyExn
  commitExn : Option PyExn
  originExists : Bool
  pushExn : Option PyExn
deriving DecidableEq, Repr

/-- `GitManager.push_logs_to_branch`: checkout-or-create the configured log
branch FIRST, then return early if the logs directory does not exist; else
stage, commit with a timestamped message, push to origin. Its
`except Exception` catches every exception and logs a warning, so the
function never raises (no `Option PyExn` in the result). -/
def push_logs_to_branch (st : RepoState) (logBranch : String) (timestamp : String)
    (env : LogsEnv) : RepoState × List LogMsg :=
  let st1 := checkout_or_create_branch st logBranch
  if !env.logsDirExists then
    (st1, [⟨LogLevel.info, "No logs to push."⟩])
  else
    match env.stageExn with
    | some _ => (st1, [⟨LogLevel.warning, "Could not push logs branch"⟩])
    | none =>
      let st2 := { st1 with index := st1.index ++ ["logs"] }
      match env.commitExn with
      | some _ => (st2, [⟨LogLevel.warning, "Could not push logs branch"⟩])
      | none =>
        let st3 := { st2 with commits := st2.commits ++ ["chore: update logs " ++ timestamp] }
        if !env.originExists then
          (st3, [⟨LogLevel.warning, "Could not push logs branch"⟩])
        else
          match env.pushExn with
          | some _ => (st3, [⟨LogLevel.warning, "Could not push logs branch"⟩])
          | none =>
            ({ st3 with pushes := st3.pushes ++ [("origin", logBranch)] },
             [⟨LogLevel.info, "Logs pushed to branch " ++ logBranch⟩])

/-! ## Content generation with effects, and the orchestrator (main.py) -/

/-- `os.path.join` for the forward-slash relative components used here. -/
def pathJoin (a b : String) : String := a ++ "/" ++ b

/-- Outcomes of the fallible steps inside `generate_daily_content`: the
headline chosen by `random.choice`, and whether each of the two
`write_text_file` calls raises. -/
structure GenEnv where
  choice : Fin 4
  digestWriteExn : Option PyExn
  sidecarWriteExn : Option PyExn

/-- `ContentGenerator.generate_daily_content`: build names and content, write
the digest file (a failure is logged and re-raised), then write the sidecar
`branch_name.txt` (a failure is logged and swallowed); return
`(branch_name, file_path)`. -/
def generate_daily_content (cfg : Config) (d : Date) (env : GenEnv) (fs : FS) :
    Except PyExn (String × String) × FS × List LogMsg :=
  let branchName := branch_name_for_date d
  let filename := digest_filename_for_date d
  let newsDir := pathJoin cfg.forkPath cfg.newsDir
  let filePath := pathJoin newsDir filename
  let content := build_content d env.choice
  match env.digestWriteExn with
  | some e => (Except.error e, fs, [⟨LogLevel.error, "Failed to write digest file"⟩])
  | none =>
    let fs1 := write_text_file filePath content fs
    match env.sidecarWriteExn with
    | some _ =>
      (Except.ok (branchName, filePath), fs1,
       [⟨LogLevel.info, "Generated content at " ++ filePath⟩,
        ⟨LogLevel.error, "Could not persist branch_name.txt"⟩])
    | none =>
      let fs2 := write_text_file (pathJoin cfg.forkPath "branch_name.txt") branchName fs1
      (Except.ok (branchName, filePath), fs2,
       [⟨LogLevel.info, "Generated content at " ++ filePath⟩,
        ⟨LogLevel.debug, "Wrote branch_name.txt"⟩])

/-- `main.main`: sync (best-effort), generate, commit-and-push, optionally
push logs; `except Exception` at the top catches anything that escaped and
the process exits with code 1, else 0. The result is the exit code and the
final repository state. -/
def mainRun (cfg : Config) (st : RepoState) (d : Date) (fs : FS)
    (senv : SyncEnv) (genv : GenEnv) (penv : PublishEnv)
    (enableLogBranch : Bool) (lenv : LogsEnv) (timestamp : String) : Nat × RepoState :=
  match sync_with_upstream cfg st senv with
  | (stSync, _, some _) => (1, stSync)
  | (st1, _, none) =>
    match generate_daily_content cfg d genv fs with
    | (Except.error _, _, _) => (1, st1)
    | (Except.ok (branchName, filePath), _, _) =>
      match commit_and_push st1 branchName filePath none penv with
      | (stPub, _, some _) => (1, stPub)
      | (st2, _, none) =>
        if enableLogBranch then (0, (push_logs_to_branch st2 cfg.logBranch timestamp lenv).1)
        else (0, st2)

/-! ## Theorems for the claims -/

/-- C3: for every date `d`, the derived branch name is `"feature/news-"`
followed by `d` as zero-padded `YYYYMMDD`, and the digest filename is
`"digest_"` followed by the same code and `".md"`; at `d = 2025-10-07` they
are `"feature/news-20251007"` and `"digest_20251007.md"`. -/
theorem C3_branch_and_digest_names (d : Date) :
    branch_name_for_date d = "feature/news-" ++ spec_yyyymmdd d ∧
    digest_filename_for_date d = "digest_" ++ spec_yyyymmdd d ++ ".md" ∧
    branch_name_for_date ⟨2025, 10, 7⟩ = "feature/news-20251007" ∧
    digest_filename_for_date ⟨2025, 10, 7⟩ = "digest_20251007.md" :=
  ⟨rfl, rfl, by decide, by decide⟩

/-- C10: the `enable_log_branch` flag is true iff the `ENABLE_LOG_BRANCH`
environment value is set and, stripped and lowercased, equals `"true"`; unset
gives false, and other set values such as `"1"` or `"yes"` give false. -/
theorem C10_enable_log_branch_flag (v : Option String) :
    (enable_log_branch v = true ↔ ∃ s, v = some s ∧ pyLower (pyStrip s) = "true") ∧
    enable_log_branch none = false ∧
    enable_log_branch (some "1") = false ∧
    enable_log_branch (some "yes") = false ∧
    enable_log_branch (some " TRUE ") = true := by
  refine ⟨?_, by decide, by decide, by decide, by decide⟩
  cases v with
  | none => simp [enable_log_branch, get_bool_env]
  | some s => simp [enable_log_branch, get_bool_env]

/-- The temporary file of `write_text_file` is never the target file. -/
theorem tmp_path_ne (p : String) : tmp_path p ≠ p := by
  intro h
  have hlen := congrArg String.length h
  have h4 : (".tmp" : String).length = 4 := rfl
  rw [tmp_path, String.length_append, h4] at hlen
  omega

/-- C5: `write_text_file` is atomic: at every intermediate point (`k < 3`
steps of the call done) the target path holds exactly what it held before the
call (so it is absent, or holds the complete prior content, never a partial
write); the temporary file holds the complete content before the rename; and
the completed call leaves the content at the target and removes the
temporary file. -/
theorem C5_write_text_file_atomic (p c : String) (fs : FS) (k : Nat) (hk : k < 3) :
    write_text_file_at p c fs k p = fs p ∧
    write_text_file_at p c fs 2 (tmp_path p) = some c ∧
    write_text_file p c fs p = some c ∧
    write_text_file p c fs (tmp_path p) = none := by
  have hne : p ≠ tmp_path p := fun h => tmp_path_ne p h.symm
  refine ⟨?_, ?_, ?_, ?_⟩
  · interval_cases k <;> simp [write_text_file_at, hne]
  · simp [write_text_file_at]
  · simp [write_text_file, write_text_file_at]
  · simp [write_text_file, write_text_file_at, tmp_path_ne p]

/-- Witness for C5 at a concrete interrupted write. -/
theorem C5_write_text_file_atomic_witness :
    write_text_file_at "a.md" "new" (fun _ => some "old") 2 "a.md" =
      (fun _ => (some "old" : Option String)) "a.md" ∧
    write_text_file_at "a.md" "new" (fun _ => some "old") 2 (tmp_path "a.md") = some "new" ∧
    write_text_file "a.md" "new" (fun _ => some "old") "a.md" = some "new" ∧
    write_text_file "a.md" "new" (fun _ => some "old") (tmp_path "a.md") = none :=
  C5_write_text_file_atomic "a.md" "new" (fun _ => some "old") 2 (by decide)

/-- C4: in `generate_daily_content`, a failing digest-file write raises (the
exception is the function's result) after logging, while a failing sidecar
`branch_name.txt` write is logged and swallowed: the function still returns
`(branch_name, file_path)` normally. -/
theorem C4_digest_write_fatal_sidecar_write_not (cfg : Config) (d : Date) (ch : Fin 4)
    (e se : PyExn) (anySidecar : Option PyExn) (fs : FS) :
    (generate_daily_content cfg d ⟨ch, some e, anySidecar⟩ fs).1 = Except.error e ∧
    ⟨LogLevel.error, "Failed to write digest file"⟩ ∈
      (generate_daily_content cfg d ⟨ch, some e, anySidecar⟩ fs).2.2 ∧
    (generate_daily_content cfg d ⟨ch, none, some se⟩ fs).1 =
      Except.ok (branch_name_for_date d,
        pathJoin (pathJoin cfg.forkPath cfg.newsDir) (digest_filename_for_date d)) ∧
    ⟨LogLevel.error, "Could not persist branch_name.txt"⟩ ∈
      (generate_daily_content cfg d ⟨ch, none, some se⟩ fs).2.2 := by
  refine ⟨rfl, ?_, rfl, ?_⟩ <;> simp [generate_daily_content]

/-- C6: checkout-or-create is consistent: called twice in a row with the same
name `X` on a repository whose branch names are (as git keeps them) free of
duplicates, the second call changes nothing (it is a pure checkout), and the
resulting state has exactly one local branch named `X`, checked out. -/
theorem C6_checkout_or_create_twice (st : RepoState) (X : String) (h : st.heads.Nodup) :
    checkout_or_create_branch (checkout_or_create_branch st X) X =
      checkout_or_create_branch st X ∧
    (checkout_or_create_branch st X).heads.count X = 1 ∧
    (checkout_or_create_branch st X).current = some X := by
  by_cases hX : X ∈ st.heads
  · refine ⟨by simp [checkout_or_create_branch, hX], ?_, by simp [checkout_or_create_branch, hX]⟩
    simpa [checkout_or_create_branch, hX] using List.count_eq_one_of_mem h hX
  · refine ⟨by simp [checkout_or_create_branch, hX], ?_, by simp [checkout_or_create_branch, hX]⟩
    simp [checkout_or_create_branch, hX, List.count_append,
      List.count_eq_zero_of_not_mem hX]

/-- Witness for C6 on a concrete repository. -/
theorem C6_checkout_or_create_twice_witness :
    checkout_or_create_branch
        (checkout_or_create_branch (⟨[], ["main"], [], some "main", [], [], []⟩ : RepoState) "X") "X" =
      checkout_or_create_branch (⟨[], ["main"], [], some "main", [], [], []⟩ : RepoState) "X" ∧
    (checkout_or_create_branch (⟨[], ["main"], [], some "main", [], [], []⟩ : RepoState) "X").heads.count "X" = 1 ∧
    (checkout_or_create_branch (⟨[], ["main"], [], some "main", [], [], []⟩ : RepoState) "X").current = some "X" :=
  C6_checkout_or_create_twice ⟨[], ["main"], [], some "main", [], [], []⟩ "X" (by decide)

/-- C7: mainline resolution follows exactly the three-way order: a local
`main` is checked out if it exists; else a local `main` is created from the
remote-tracking ref `<upstream>/main` if that exists; else `main` is created
from current HEAD with a warning logged. -/
theorem C7_mainline_resolution_order (up : String) (st : RepoState) :
    ("main" ∈ st.heads →
      resolve_mainline up st =
        ({ st with current := some "main" }, MainlineAction.checkoutExisting, [])) ∧
    ("main" ∉ st.heads → (up ++ "/main") ∈ refNames st →
      resolve_mainline up st =
        ({ st with heads := st.heads ++ ["main"], current := some "main" },
         MainlineAction.createFromRemoteRef, [])) ∧
    ("main" ∉ st.heads → (up ++ "/main") ∉ refNames st →
      resolve_mainline up st =
        ({ st with heads := st.heads ++ ["main"], current := some "main" },
         MainlineAction.createFromHead,
         [⟨LogLevel.warning, "Created main from current HEAD; upstream main not found."⟩])) := by
  refine ⟨fun h1 => ?_, fun h1 h2 => ?_, fun h1 h2 => ?_⟩
  · simp [resolve_mainline, h1]
  · simp [resolve_mainline, h1, h2]
  · simp [resolve_mainline, h1, h2]

/-- C8 counterexample: with no logs directory, `push_logs_to_branch` does NOT
leave the repository state unchanged: starting on `main` with no `logs`
branch, it creates and checks out the log branch before noticing there is
nothing to push. -/
theorem C8_counterexample :
    (push_logs_to_branch (⟨[], ["main"], [], some "main", [], [], []⟩ : RepoState) "logs" "t"
        ⟨false, none, none, true, none⟩).1 ≠
      (⟨[], ["main"], [], some "main", [], [], []⟩ : RepoState) := by
  decide

/-- C8 amended: when the logs directory does not exist, `push_logs_to_branch`
performs no stage, no commit and no push — but only after it has already
checked out (creating it if absent) the configured log branch; the final
state is exactly `checkout_or_create_branch` of the log branch applied to the
initial state, every other component (remotes, remote refs, index, commits,
pushes) unchanged. -/
theorem C8_no_logs_dir_no_publish (st : RepoState) (lb ts : String) (env : LogsEnv)
    (h : env.logsDirExists = false) :
    push_logs_to_branch st lb ts env =
      (checkout_or_create_branch st lb, [⟨LogLevel.info, "No logs to push."⟩]) ∧
    (push_logs_to_branch st lb ts env).1.index = st.index ∧
    (push_logs_to_branch st lb ts env).1.commits = st.commits ∧
    (push_logs_to_branch st lb ts env).1.pushes = st.pushes ∧
    (push_logs_to_branch st lb ts env).1.remotes = st.remotes ∧
    (push_logs_to_branch st lb ts env).1.remoteRefs = st.remoteRefs := by
  have hmain : push_logs_to_branch st lb ts env =
      (checkout_or_create_branch st lb, [⟨LogLevel.info, "No logs to push."⟩]) := by
    simp [push_logs_to_branch, h]
  refine ⟨hmain, ?_, ?_, ?_, ?_, ?_⟩ <;>
    rw [hmain] <;> by_cases hlb : lb ∈ st.heads <;> simp [checkout_or_create_branch, hlb]

/-- Witness for C8 (amended) on a concrete repository. -/
theorem C8_no_logs_dir_no_publish_witness :
    (push_logs_to_branch (⟨[], ["main"], [], some "main", [], [], []⟩ : RepoState) "logs" "t"
        ⟨false, none, none, true, none⟩).1.commits =
      (⟨[], ["main"], [], some "main", [], [], []⟩ : RepoState).commits :=
  (C8_no_logs_dir_no_publish ⟨[], ["main"], [], some "main", [], [], []⟩ "logs" "t"
    ⟨false, none, none, true, none⟩ rfl).2.2.1

/-- Once the upstream remote is ensured, `sync_with_upstream` returns
normally (every later failure is a `GitCommandError`, caught by its `except`
clause), and a failing fetch or pull leaves a warning in the log. -/
theorem syncAfterRemote_returns_normally (cfg : Config) (st : RepoState)
    (logs : List LogMsg) (env : SyncEnv) :
    (syncAfterRemote cfg st logs env).2.2 = none ∧
    (env.fetchOk = false ∨ env.pullOk = false →
      LogLevel.warning ∈ ((syncAfterRemote cfg st logs env).2.1.map LogMsg.level)) := by
  rcases env with ⟨fOk, pOk⟩
  cases fOk <;> cases pOk <;> simp [syncAfterRemote, resolve_mainline]

/-- C1 counterexample: the Sync Controller CAN raise. With the upstream
remote absent and the upstream URL unavailable (owner/repo not both
configured, so `repo_url_alt` is `None`), `create_remote(name, None)` raises
a `TypeError` inside GitPython, and the `except GitCommandError` clause of
`sync_with_upstream` does not catch it: the exception propagates to the
caller instead of being logged as a warning. -/
theorem C1_counterexample :
    (sync_with_upstream (⟨none, some "repo", "upstream", "/fork", "news", "logs"⟩ : Config)
        (⟨[], [], [], none, [], [], []⟩ : RepoState) ⟨true, true⟩).2.2 =
      some (PyExn.typeError "expected str, bytes or os.PathLike object, not NoneType") := by
  decide

/-- C1 amended: `sync_with_upstream` logs a warning and returns normally for
every combination of missing upstream remote, missing local mainline, and
failing fetch or pull, PROVIDED that when the remote is missing the upstream
URL is configured; in the one remaining case (remote missing and URL
unavailable) a `TypeError` escapes to the caller. -/
theorem C1_sync_returns_normally (cfg : Config) (st : RepoState) (env : SyncEnv)
    (h : (get_remote st cfg.remoteUpstream).isSome = true ∨ cfg.repoUrlAlt.isSome = true) :
    (sync_with_upstream cfg st env).2.2 = none ∧
    (env.fetchOk = false ∨ env.pullOk = false →
      LogLevel.warning ∈ ((sync_with_upstream cfg st env).2.1.map LogMsg.level)) := by
  rcases hr : get_remote st cfg.remoteUpstream with _ | r
  · rcases hu : cfg.repoUrlAlt with _ | url
    · rw [hr, hu] at h
      simp at h
    · have := syncAfterRemote_returns_normally cfg
        { st with remotes := st.remotes ++ [(cfg.remoteUpstream, url)] }
        [⟨LogLevel.info, "Added upstream remote"⟩] env
      simpa [sync_with_upstream, hr, hu] using this
  · have := syncAfterRemote_returns_normally cfg st [] env
    simpa [sync_with_upstream, hr] using this

/-- Witness for C1 (amended): a concrete repository with the upstream remote
present and a failing fetch — sync returns normally. -/
theorem C1_sync_returns_normally_witness :
    (sync_with_upstream (⟨none, none, "upstream", "/fork", "news", "logs"⟩ : Config)
        (⟨[("upstream", "u")], ["main"], [], some "main", [], [], []⟩ : RepoState)
        ⟨false, true⟩).2.2 = none :=
  (C1_sync_returns_normally ⟨none, none, "upstream", "/fork", "news", "logs"⟩
    ⟨[("upstream", "u")], ["main"], [], some "main", [], [], []⟩ ⟨false, true⟩
    (Or.inl (by decide))).1

/-- `handleGitExc` always propagates the exception it is given. -/
theorem handleGitExc_exn (st : RepoState) (logs : List LogMsg) (e : PyExn) :
    (handleGitExc st logs e).2.2 = some e := by
  cases e <;> rfl

/-- Any failing step makes `commit_and_push` end with an escaping
exception. -/
theorem commit_and_push_exn (st : RepoState) (bn fp : String) (cm : Option String)
    (penv : PublishEnv)
    (h : penv.branchExn ≠ none ∨ penv.stageExn ≠ none ∨ penv.commitExn ≠ none ∨
         penv.originExists = false ∨ penv.pushExn ≠ none) :
    (commit_and_push st bn fp cm penv).2.2 ≠ none := by
  rcases penv with ⟨be, se, ce, oe, pe⟩
  cases be <;> cases se <;> cases ce <;> cases oe <;> cases pe <;>
    simp_all [commit_and_push, handleGitExc_exn]

/-- C2: every failing publish step (branch creation, staging, commit, a
missing `origin` remote, a rejected push) makes `commit_and_push` end with an
exception observable by its caller, and a run that reaches the publish step
(sync returned normally, the digest write succeeded) then exits with code
1. -/
theorem C2_publish_failure_is_fatal (cfg : Config) (st stc : RepoState) (d : Date) (fs : FS)
    (senv : SyncEnv) (genv : GenEnv) (penv : PublishEnv) (elb : Bool) (lenv : LogsEnv)
    (ts : String) (bn fp : String) (cm : Option String)
    (hFail : penv.branchExn ≠ none ∨ penv.stageExn ≠ none ∨ penv.commitExn ≠ none ∨
             penv.originExists = false ∨ penv.pushExn ≠ none)
    (hSync : (sync_with_upstream cfg st senv).2.2 = none)
    (hGen : genv.digestWriteExn = none) :
    (commit_and_push stc bn fp cm penv).2.2 ≠ none ∧
    (mainRun cfg st d fs senv genv penv elb lenv ts).1 = 1 := by
  refine ⟨commit_and_push_exn stc bn fp cm penv hFail, ?_⟩
  rcases hs : sync_with_upstream cfg st senv with ⟨st1, l1, e1⟩
  rw [hs] at hSync
  simp only at hSync
  subst hSync
  rcases genv with ⟨ch, dw, sw⟩
  simp only at hGen
  subst hGen
  have hcp := commit_and_push_exn st1
    (branch_name_for_date d)
    (pathJoin (pathJoin cfg.forkPath cfg.newsDir) (digest_filename_for_date d))
    none penv hFail
  rcases hc : commit_and_push st1 (branch_name_for_date d)
      (pathJoin (pathJoin cfg.forkPath cfg.newsDir) (digest_filename_for_date d))
      none penv with ⟨stp, lp, ep⟩
  rw [hc] at hcp
  simp only at hcp
  rcases ep with _ | e
  · exact absurd rfl hcp
  · cases sw <;> simp [mainRun, hs, generate_daily_content, hc]

/-- Witness for C2: a concrete run in which the push fails (no `origin`
remote) exits with code 1. -/
theorem C2_publish_failure_is_fatal_witness :
    (mainRun (⟨none, none, "upstream", "/fork", "news", "logs"⟩ : Config)
        (⟨[("upstream", "u")], ["main"], [], some "main", [], [], []⟩ : RepoState)
        ⟨2025, 10, 7⟩ (fun _ => none) ⟨true, true⟩ ⟨0, none, none⟩
        ⟨none, none, none, false, none⟩ false ⟨false, none, none, true, none⟩ "t").1 = 1 :=
  (C2_publish_failure_is_fatal ⟨none, none, "upstream", "/fork", "news", "logs"⟩
    ⟨[("upstream", "u")], ["main"], [], some "main", [], [], []⟩
    ⟨[], [], [], none, [], [], []⟩ ⟨2025, 10, 7⟩ (fun _ => none) ⟨true, true⟩ ⟨0, none, none⟩
    ⟨none, none, none, false, none⟩ false ⟨false, none, none, true, none⟩ "t"
    "b" "f" none
    (Or.inr (Or.inr (Or.inr (Or.inl rfl))))
    (by decide) rfl).2

/-- The four headline candidates are pairwise distinct (as indexed
strings). -/
theorem headlines_getD_injective :
    ∀ i j : Fin 4, headlines.getD i.val "" = headlines.getD j.val "" → i = j := by
  decide

/-- C9: for every date, the digest content is the fixed template instantiated
with the long-form date and one of the four fixed headlines: every produced
string starts with `"# Daily Tech Digest - "`, distinct headline choices give
distinct strings, and per date there are exactly four possible content
strings. -/
theorem C9_content_is_template_with_four_headlines (d : Date) :
    (∀ ch : Fin 4, build_content d ch =
      "# Daily Tech Digest - " ++
        (long_date_string d ++ "\n\n" ++ "## " ++ headlines.getD ch.val "" ++ "\n\n" ++
          digestBody)) ∧
    Function.Injective (fun ch : Fin 4 => build_content d ch) ∧
    (Finset.univ.image fun ch : Fin 4 => build_content d ch).card = 4 := by
  have hinj : Function.Injective (fun ch : Fin 4 => build_content d ch) := by
    intro i j hij
    have hd : (build_content d i).data = (build_content d j).data :=
      congrArg String.data hij
    simp only [build_content, String.data_append, List.append_assoc] at hd
    have h1 := List.append_cancel_left hd
    have h2 := List.append_cancel_left h1
    have h3 := List.append_cancel_left h2
    have h4 := List.append_cancel_left h3
    have h5 := List.append_cancel_right h4
    exact headlines_getD_injective i j (String.ext h5)
  refine ⟨?_, hinj, ?_⟩
  · intro ch
    apply String.ext
    simp [build_content, String.data_append, List.append_assoc]
  · rw [Finset.card_image_of_injective Finset.univ hinj]
    simp
